import Mathlib

/-!
Shallow embedding of the forescore_db document-store / GitHub-replication
subsystem (src/index.js, src/unnamed/part_000) and proofs about the frozen
claims.  The repository holds near-duplicate variants of one Express server:

* variant A = src/index.js lines 1-230 (trips only; `writeJsonFile` rethrows,
  `syncToGitHub` checks `res.ok` and on success recursively drains one queued
  entry);
* variant A2 = src/index.js lines 230-527 (trips + users; part_000-style);
* variant B = src/unnamed/part_000 (trips + users; `writeJsonFile` swallows
  errors, `syncToGitHub` ignores the PUT response status).

Remote HTTP outcomes, clock readings and local-write success are passed in as
explicit parameters, so every definition is executable.
-/

namespace Forescore

/-- `SYNC_INTERVAL = 60000` (src/index.js:37, part_000:48). -/
def SYNC_INTERVAL : Nat := 60000

/-- `FILES.trips` (part_000:37). -/
def tripsPath : String := "./data/trips.json"

/-- `FILES.users` (part_000:38). -/
def usersPath : String := "./data/users.json"

/-- The module-level sync globals: `let lastSyncTime = null` and
`const syncQueue = []` (src/index.js:36-38, part_000:47-49).  There is one
such state for the whole process, not one per collection; queue entries are
file paths (collections). -/
structure SyncSt where
  lastSyncTime : Option Nat
  syncQueue : List String
  deriving DecidableEq, Repr

/-- Result of one `syncToGitHub` call: the rate-limit early return, the
success path, or the catch path. -/
inductive SyncRes
  | deferred
  | synced
  | failed
  deriving DecidableEq, Repr

/-- Remote outcome of one fetch-then-PUT attempt in variant A
(src/index.js:78-95), where a non-2xx PUT response is turned into a thrown
error by the explicit `if (!res.ok) throw` check. -/
inductive OutA
  | ok
  | putNotOk
  | fetchThrow
  | putThrow
  deriving DecidableEq, Repr

/-- Remote outcome of one fetch-then-PUT attempt in variant B
(part_000:85-101): the PUT response object is never inspected, so a PUT that
was answered at all — `responded putOk` with either flag — reaches the code
after the `await` without throwing; only network-level rejections
(`fetchThrow`, `putThrow`) reach the catch. -/
inductive OutB
  | responded (putOk : Bool)
  | fetchThrow
  | putThrow
  deriving DecidableEq, Repr

/-- The guard `!force && lastSyncTime && (now - lastSyncTime) < SYNC_INTERVAL`
(src/index.js:70, part_000:75); `lastSyncTime = null` is falsy, so a fresh
process is never rate limited. -/
def rateLimited (last : Option Nat) (now : Nat) : Bool :=
  match last with
  | none => false
  | some t => now - t < SYNC_INTERVAL

/-- `syncToGitHub(filePath, force)` of variant B (part_000:73-109).  When the
rate-limit guard fires the path is pushed onto `syncQueue` and the call
returns; otherwise the fetch+PUT run, the catch re-queues on a thrown error,
and any answered PUT — its status is never checked — falls through to
`lastSyncTime = now`. -/
def syncB (fp : String) (force : Bool) (now : Nat) (o : OutB) (s : SyncSt) :
    SyncSt × SyncRes :=
  if !force && rateLimited s.lastSyncTime now then
    ({ s with syncQueue := s.syncQueue ++ [fp] }, SyncRes.deferred)
  else
    match o with
    | OutB.responded _ => ({ s with lastSyncTime := some now }, SyncRes.synced)
    | OutB.fetchThrow => ({ s with syncQueue := s.syncQueue ++ [fp] }, SyncRes.failed)
    | OutB.putThrow => ({ s with syncQueue := s.syncQueue ++ [fp] }, SyncRes.failed)

/-- `syncToGitHub(filePath, force)` of variant A (src/index.js:68-107).
After a successful PUT (`res.ok`), `lastSyncTime = now` and, if the queue is
non-empty, one entry is shifted and synced recursively without `force`
(src/index.js:98-102); that inner call reads `new Date()` again within the
same tick, modelled by reusing `now`, so it always hits the rate-limit branch.
`outs` supplies one remote outcome per attempt that reaches the network.
`fuel` bounds the recursion; every reachable call chain has depth at most 2
because the recursive call is rate limited, so any `fuel ≥ 2` is faithful. -/
def syncA : Nat → String → Bool → Nat → List OutA → SyncSt → SyncSt × SyncRes
  | 0, _, _, _, _, s => (s, SyncRes.failed)
  | Nat.succ fuel, fp, force, now, outs, s =>
    if !force && rateLimited s.lastSyncTime now then
      ({ s with syncQueue := s.syncQueue ++ [fp] }, SyncRes.deferred)
    else
      match outs with
      | [] => (s, SyncRes.failed)
      | o :: rest =>
        match o with
        | OutA.fetchThrow => ({ s with syncQueue := s.syncQueue ++ [fp] }, SyncRes.failed)
        | OutA.putThrow => ({ s with syncQueue := s.syncQueue ++ [fp] }, SyncRes.failed)
        | OutA.putNotOk => ({ s with syncQueue := s.syncQueue ++ [fp] }, SyncRes.failed)
        | OutA.ok =>
          let s1 : SyncSt := { s with lastSyncTime := some now }
          match s1.syncQueue with
          | [] => (s1, SyncRes.synced)
          | next :: qrest =>
            let inner := syncA fuel next false now rest { s1 with syncQueue := qrest }
            (inner.1, SyncRes.synced)

/-- One tick of the variant-A drain timer (src/index.js:222-226):
`if (syncQueue.length > 0) syncToGitHub(syncQueue.shift())` — note `force`
defaults to `false`. -/
def drainTickA (now : Nat) (outs : List OutA) (s : SyncSt) :
    SyncSt × Option SyncRes :=
  match s.syncQueue with
  | [] => (s, none)
  | fp :: rest =>
    let r := syncA 2 fp false now outs { s with syncQueue := rest }
    (r.1, some r.2)

/-- One tick of the variant-B drain timer (part_000:422-424), same shape. -/
def drainTickB (now : Nat) (o : OutB) (s : SyncSt) :
    SyncSt × Option SyncRes :=
  match s.syncQueue with
  | [] => (s, none)
  | fp :: rest =>
    let r := syncB fp false now o { s with syncQueue := rest }
    (r.1, some r.2)

/-- A per-user per-trip score entry of variant B (part_000:158-161, 271-274,
316-319): two parallel JS arrays indexed by round.  JS index assignment past
the end leaves holes, modelled as `none`; a present empty array is
`some []`. -/
structure ScoreEntry where
  raw_scores : List (Option (List Int))
  net_scores : List (Option (List Int))
  deriving DecidableEq, Repr

/-- A trip record as handled by variant B's routes: required `tripId` and
`tripLeader` (part_000:142), optional `numRounds` (`trip.numRounds || 1`,
part_000:159, 270) and optional `users` array (part_000:165, 277). -/
structure Trip where
  tripId : String
  tripLeader : String
  numRounds : Option Nat
  users : Option (List String)
  deriving DecidableEq, Repr

/-- `trip.numRounds || 1`: in JS both an absent field and `0` are falsy. -/
def numRoundsOr1 (t : Trip) : Nat :=
  match t.numRounds with
  | none => 1
  | some 0 => 1
  | some n => n

/-- A user record of variant B (part_000:199-205): `trips` is the nested
mapping from trip id to score entry. -/
structure PUser where
  username : String
  password : String
  name : String
  handicap : Int
  trips : List (String × ScoreEntry)
  friends : List String
  deriving DecidableEq, Repr

/-- The `users.json` aggregate `{ users: [...] }` (part_000:151, 191). -/
structure UsersFile where
  users : List PUser
  deriving DecidableEq, Repr

/-- The `trips.json` aggregate `{ trips: {...} }` (part_000:131, 139): a JS
object mapping trip id to trip, modelled as an assoc list with unique keys in
insertion order. -/
structure TripsFile where
  trips : List (String × Trip)
  deriving DecidableEq, Repr

/-- JS object-key assignment `m[k] = v`: replace the value if the key exists,
otherwise append the key at the end (JS insertion order). -/
def upsert {α : Type} (l : List (String × α)) (k : String) (v : α) :
    List (String × α) :=
  if l.any (fun p => p.1 == k) then
    l.map (fun p => if p.1 == k then (k, v) else p)
  else l ++ [(k, v)]

/-- Mutating a found array element in place (`const user = users.find(...)`
followed by field writes, then `writeJsonFile`): the first element whose
username matches is replaced, everything else is untouched. -/
def replaceFirst : List PUser → String → PUser → List PUser
  | [], _, _ => []
  | u :: rest, uname, u1 =>
    if u.username == uname then u1 :: rest else u :: replaceFirst rest uname u1

/-- JS array index assignment `arr[i] = x`: within bounds it overwrites;
past the end it extends the array to length `i + 1`, leaving holes
(`undefined`, here `none`) in between. -/
def setPad {α : Type} (l : List (Option α)) (i : Nat) (x : α) :
    List (Option α) :=
  if i < l.length then l.set i (some x)
  else (l ++ List.replicate (i - l.length) none) ++ [some x]

/-- The score entry created by trip creation and add-trip in variant B
(part_000:158-161 and 271-274): one empty array per round,
`Array.from({ length: numRounds }, () => [])` twice. -/
def mkEntryB (t : Trip) : ScoreEntry :=
  ⟨List.replicate (numRoundsOr1 t) (some []),
   List.replicate (numRoundsOr1 t) (some [])⟩

/-- The `scores` array created by the index.js add-trip variant
(src/index.js:466-471): `Array.from({ length: numRounds }, () => [])` with
`numRounds = trip.numRounds || 1`. -/
def mkEntryIdx (t : Trip) : List (Option (List Int)) :=
  List.replicate (numRoundsOr1 t) (some [])

/-- Find a user by `u.username === username` (part_000:153, 237, 254, 311). -/
def findUser (uf : UsersFile) (uname : String) : Option PUser :=
  uf.users.find? (fun u => u.username == uname)

/-- `user.trips[tripId]` on the model's assoc list. -/
def entryOf (u : PUser) (tid : String) : Option ScoreEntry :=
  (u.trips.find? (fun p => p.1 == tid)).map (fun p => p.2)

/-- `data.trips[tripId]`. -/
def tripOf (tf : TripsFile) (tid : String) : Option Trip :=
  (tf.trips.find? (fun p => p.1 == tid)).map (fun p => p.2)

/-- Response of variant B's `POST /trips` (part_000:137-182).  `created`
carries the `trip` object echoed by `res.status(201).json({ message, trip })`
— the live object, including mutations made after the trips file was
written. -/
inductive TripsResp
  | badRequest
  | created (trip : Trip)
  deriving DecidableEq, Repr

/-- Everything `POST /trips` (variant B) leaves behind. -/
structure PostTripsBOut where
  resp : TripsResp
  tripsFile : TripsFile
  usersFile : UsersFile
  sync : SyncSt
  deriving DecidableEq, Repr

/-- `POST /trips` of variant B (part_000:137-182).  `wTrips`/`wUsers` say
whether the two `writeJsonFile` calls succeed; part_000's `writeJsonFile`
(part_000:64-71) catches its own error without rethrowing, so a failed write
leaves the disk file unchanged and the handler continues unaware.  Order of
effects: store the trip and write trips.json (with the request body as it is
at that moment); then, if the leader exists, create their score entry if
absent, ensure & extend the in-memory `trip.users` (mutating the same `trip`
object that was already written — the disk file does not get this push, the
response does), and write users.json; finally two forced syncs and the 201
response. -/
def postTripsB (body : Trip) (tf : TripsFile) (uf : UsersFile)
    (wTrips wUsers : Bool) (now1 now2 : Nat) (o1 o2 : OutB) (ss : SyncSt) :
    PostTripsBOut :=
  if body.tripId == "" || body.tripLeader == "" then
    ⟨TripsResp.badRequest, tf, uf, ss⟩
  else
    let data1 : TripsFile := ⟨upsert tf.trips body.tripId body⟩
    let tfDisk := if wTrips then data1 else tf
    match uf.users.find? (fun u => u.username == body.tripLeader) with
    | none =>
      let ss1 := (syncB tripsPath true now1 o1 ss).1
      let ss2 := (syncB usersPath true now2 o2 ss1).1
      ⟨TripsResp.created body, tfDisk, uf, ss2⟩
    | some user =>
      let user1 :=
        if user.trips.any (fun p => p.1 == body.tripId) then user
        else { user with trips := user.trips ++ [(body.tripId, mkEntryB body)] }
      let tripUsers := body.users.getD []
      let body1 :=
        if tripUsers.contains body.tripLeader then
          { body with users := some tripUsers }
        else
          { body with users := some (tripUsers ++ [body.tripLeader]) }
      let uf1 : UsersFile :=
        ⟨uf.users.map (fun u => if u.username == body.tripLeader then user1 else u)⟩
      let ufDisk := if wUsers then uf1 else uf
      let ss1 := (syncB tripsPath true now1 o1 ss).1
      let ss2 := (syncB usersPath true now2 o2 ss1).1
      ⟨TripsResp.created body1, tfDisk, ufDisk, ss2⟩

/-- Response of variant B's `POST /users/:username/add-trip`
(part_000:247-292): 404 for a missing user or trip, otherwise
`res.json(user)` with the (mutated) user record. -/
inductive AddTripResp
  | notFoundUser
  | notFoundTrip
  | okUser (u : PUser)
  deriving DecidableEq, Repr

/-- Everything add-trip (variant B) leaves behind. -/
structure AddTripBOut where
  resp : AddTripResp
  usersFile : UsersFile
  tripsFile : TripsFile
  sync : SyncSt
  deriving DecidableEq, Repr

/-- `POST /users/:username/add-trip` of variant B (part_000:247-292).  If the
user has no entry for the trip, one is created with `mkEntryB`
(part_000:269-275); if the trip's `users` array lacks the username it is
pushed and trips.json written and force-synced (part_000:281-286); users.json
is always written and force-synced (part_000:288-289). -/
def addTripB (uname tid : String) (uf : UsersFile) (tf : TripsFile)
    (now1 now2 : Nat) (o1 o2 : OutB) (ss : SyncSt) : AddTripBOut :=
  match uf.users.find? (fun u => u.username == uname) with
  | none => ⟨AddTripResp.notFoundUser, uf, tf, ss⟩
  | some user =>
    match tripOf tf tid with
    | none => ⟨AddTripResp.notFoundTrip, uf, tf, ss⟩
    | some trip =>
      let user1 :=
        if user.trips.any (fun p => p.1 == tid) then user
        else { user with trips := user.trips ++ [(tid, mkEntryB trip)] }
      let tripUsers := trip.users.getD []
      let pushNeeded := !(tripUsers.contains uname)
      let trip1 := { trip with users := some (tripUsers ++ [uname]) }
      let tf1 : TripsFile :=
        if pushNeeded then ⟨upsert tf.trips tid trip1⟩ else tf
      let ss1 := if pushNeeded then (syncB tripsPath true now1 o1 ss).1 else ss
      let uf1 : UsersFile := ⟨replaceFirst uf.users uname user1⟩
      let ss2 := (syncB usersPath true now2 o2 ss1).1
      ⟨AddTripResp.okUser user1, uf1, tf1, ss2⟩

/-- Response of variant B's save-scores route (part_000:298-329). -/
inductive SaveScoresResp
  | badRequest
  | notFoundUser
  | okMsg
  deriving DecidableEq, Repr

/-- Everything save-scores (variant B) leaves behind. -/
structure SaveScoresOut where
  resp : SaveScoresResp
  usersFile : UsersFile
  sync : SyncSt
  deriving DecidableEq, Repr

/-- `POST /users/:username/trips/:tripId/save-scores` (part_000:298-329).
Validation requires `raw` and `net` of length 18.  If the user has no entry
for `tripId`, one is created with EMPTY `raw_scores`/`net_scores`
(part_000:315-320) — not sized to the trip's round count; the trips file is
never consulted.  Then `raw_scores[round] = raw` and `net_scores[round] =
net` (part_000:323-324, JS index assignment, i.e. `setPad`). -/
def saveScoresB (uname tid : String) (round : Nat) (raw net : List Int)
    (uf : UsersFile) (now : Nat) (o : OutB) (ss : SyncSt) : SaveScoresOut :=
  if !(raw.length == 18 && net.length == 18) then
    ⟨SaveScoresResp.badRequest, uf, ss⟩
  else
    match uf.users.find? (fun u => u.username == uname) with
    | none => ⟨SaveScoresResp.notFoundUser, uf, ss⟩
    | some user =>
      let entry :=
        match entryOf user tid with
        | some e => e
        | none => ⟨[], []⟩
      let entry1 : ScoreEntry :=
        ⟨setPad entry.raw_scores round raw, setPad entry.net_scores round net⟩
      let user1 := { user with trips := upsert user.trips tid entry1 }
      let uf1 : UsersFile := ⟨replaceFirst uf.users uname user1⟩
      let ss1 := (syncB usersPath true now o ss).1
      ⟨SaveScoresResp.okMsg, uf1, ss1⟩

/-- A trip record of variant A (src/index.js:142-148): all seven fields are
required by the handler's falsy-check.  The three array fields are present by
typing (a present JS array is truthy even when empty, so the handler never
inspects their contents). -/
structure TripA where
  tripId : String
  numTeams : Nat
  playersPerTeam : Nat
  numRounds : Nat
  courses : List String
  scoringMethods : List String
  teams : List String
  deriving DecidableEq, Repr

/-- The variant-A `trips.json` aggregate. -/
structure TripsFileA where
  trips : List (String × TripA)
  deriving DecidableEq, Repr

/-- Response of variant A's `POST /trips` (src/index.js:140-158). -/
inductive TripsRespA
  | badRequest
  | created (trip : TripA)
  | serverError
  deriving DecidableEq, Repr

/-- Everything `POST /trips` (variant A) leaves behind. -/
structure PostTripsAOut where
  resp : TripsRespA
  tripsFile : TripsFileA
  sync : SyncSt
  deriving DecidableEq, Repr

/-- `POST /trips` of variant A (src/index.js:140-158).  Variant A's
`writeJsonFile` (src/index.js:58-66) RETHROWS a write error, so with
`wOk = false` the handler's catch answers 500 and neither the disk file nor
the sync state is touched; with `wOk = true` the trip is stored, a forced
sync fires (fire-and-forget), and the 201 response carries the trip. -/
def postTripsA (body : TripA) (tf : TripsFileA) (wOk : Bool) (now : Nat)
    (outs : List OutA) (ss : SyncSt) : PostTripsAOut :=
  if body.tripId == "" || body.numTeams == 0 || body.playersPerTeam == 0 ||
      body.numRounds == 0 then
    ⟨TripsRespA.badRequest, tf, ss⟩
  else if wOk then
    let tf1 : TripsFileA := ⟨upsert tf.trips body.tripId body⟩
    let ss1 := (syncA 2 tripsPath true now outs ss).1
    ⟨TripsRespA.created body, tf1, ss1⟩
  else
    ⟨TripsRespA.serverError, tf, ss⟩

/-- A registration request body (part_000:186): `handicap === undefined` is
ruled out by typing, the other three fields must be truthy (non-empty). -/
structure RegReq where
  username : String
  password : String
  name : String
  handicap : Int
  deriving DecidableEq, Repr

/-- Modelled from the spec: `bcrypt.hash` is an external collaborator
(spec §1 places password hashing out of scope); only its data flow matters
here, so it is modelled as a concrete tagging function. -/
def bcryptHash (p : String) : String := "bcrypt-10-rounds:" ++ p

/-- The user object built by `POST /users/register` (part_000:199-205). -/
def mkRegUser (r : RegReq) : PUser :=
  ⟨r.username, bcryptHash r.password, r.name, r.handicap, [], []⟩

/-- Progress of one in-flight `POST /users/register` handler
(part_000:185-214).  The handler suspends exactly once, at
`await bcrypt.hash(password, 10)` (part_000:198); `hashing snap` records the
`usersData` object it read from disk BEFORE suspending and will push into and
write back AFTER resuming. -/
inductive RegPhase
  | start
  | hashing (snap : List PUser)
  | responded (status : Nat)
  deriving DecidableEq, Repr

/-- One step of a register handler against the current users file: from
`start` it validates, reads the file, checks for a duplicate username and
suspends on the hash (capturing its snapshot); from `hashing` it resumes,
pushes the new user into ITS SNAPSHOT and writes that snapshot back to the
file (part_000:206-207), then answers 201 (the force-sync at part_000:208 is
fire-and-forget and does not touch the users file). -/
def regStep (r : RegReq) (file : List PUser) :
    RegPhase → List PUser × RegPhase
  | RegPhase.start =>
    if r.username == "" || r.password == "" || r.name == "" then
      (file, RegPhase.responded 400)
    else if file.any (fun u => u.username == r.username) then
      (file, RegPhase.responded 409)
    else
      (file, RegPhase.hashing file)
  | RegPhase.hashing snap => (snap ++ [mkRegUser r], RegPhase.responded 201)
  | RegPhase.responded st => (file, RegPhase.responded st)

/-- Two concurrent register requests interleaved by the event loop: the
shared users file plus each handler's phase. -/
structure RegSys where
  file : List PUser
  p1 : RegPhase
  p2 : RegPhase
  deriving DecidableEq, Repr

/-- Advance one of the two handlers by one atomic segment (`false` = first
request, `true` = second). -/
def regSchedStep (r1 r2 : RegReq) (s : RegSys) : Bool → RegSys
  | false =>
    let fp := regStep r1 s.file s.p1
    { s with file := fp.1, p1 := fp.2 }
  | true =>
    let fp := regStep r2 s.file s.p2
    { s with file := fp.1, p2 := fp.2 }

/-- Run a schedule: the event loop picks which suspended handler resumes at
each point.  Node's single thread makes each `regStep` segment atomic, but
between segments any interleaving is possible because `bcrypt.hash` completes
asynchronously. -/
def regRun (r1 r2 : RegReq) (sched : List Bool) (s : RegSys) : RegSys :=
  sched.foldl (regSchedStep r1 r2) s

/-- Startup events for variant A (src/index.js:220-229).  `restoreWrite`
is the continuation of `restoreFromGitHub(FILES.trips)` landing its
`writeJsonFile(filePath, JSON.parse(decoded))` (src/index.js:118);
`acceptPostTrip` is a mutation accepted by an already-listening server
(the store step of `POST /trips`, src/index.js:147-149). -/
inductive StartEv
  | restoreWrite (remote : TripsFileA)
  | acceptPostTrip (t : TripA)
  deriving DecidableEq, Repr

/-- Effect of one startup event on the trips file. -/
def applyStartEv (f : TripsFileA) : StartEv → TripsFileA
  | StartEv.restoreWrite remote => remote
  | StartEv.acceptPostTrip t => ⟨upsert f.trips t.tripId t⟩

/-- Fold a startup trace over the trips file. -/
def runStart (f : TripsFileA) (evs : List StartEv) : TripsFileA :=
  evs.foldl applyStartEv f

/-- Which event orderings the code admits at startup: `restoreFromGitHub`'s
promise is NOT awaited before `server.listen` (src/index.js:221 then 228 run
in the same synchronous script), so the only constraint is that restore
writes at most once; in particular mutations accepted after `listen` may
precede the restore write. -/
def startupAdmissible (evs : List StartEv) : Bool :=
  (evs.countP (fun e =>
    match e with
    | StartEv.restoreWrite _ => true
    | _ => false)) ≤ 1

/-- JSON values, for routes that treat records as opaque field maps. -/
inductive JVal
  | str (s : String)
  | num (n : Int)
  | jbool (b : Bool)
  | jnull
  | arr (xs : List JVal)
  | obj (fields : List (String × JVal))

/-- Field lookup on a JS object (own properties, unique keys). -/
def lookupField (fs : List (String × JVal)) (k : String) : Option JVal :=
  (fs.find? (fun f => f.1 == k)).map (fun f => f.2)

/-- `u.username === username` for a field map: true only when the field is
present and is exactly that string. -/
def isUsername (fs : List (String × JVal)) (uname : String) : Bool :=
  match lookupField fs "username" with
  | some (JVal.str s) => s == uname
  | _ => false

/-- `const { password, ...userWithoutPassword } = user` (part_000:243,
src/index.js:439): the rest pattern copies every own property except
`password`, preserving order. -/
def omitPassword (fs : List (String × JVal)) : List (String × JVal) :=
  fs.filter (fun f => !(f.1 == "password"))

/-- Response of `GET /users/:username` (part_000:233-245,
src/index.js:429-441). -/
inductive GetUserResp
  | notFound
  | okFields (fields : List (String × JVal))

/-- `GET /users/:username` (part_000:233-245): find the user by username and
answer the record with the password field removed. -/
def getUserB (users : List (List (String × JVal))) (uname : String) :
    GetUserResp :=
  match users.find? (fun u => isUsername u uname) with
  | none => GetUserResp.notFound
  | some u => GetUserResp.okFields (omitPassword u)

/-- `data.trips[tripId]` for variant A. -/
def tripOfA (tf : TripsFileA) (tid : String) : Option TripA :=
  (tf.trips.find? (fun p => p.1 == tid)).map (fun p => p.2)

/-- Concrete trip for counterexamples (variant B shape): three rounds. -/
def cxTrip : Trip := ⟨"T1", "lee", some 3, none⟩

/-- Concrete trip for counterexamples (variant A shape). -/
def cxTripA : TripA := ⟨"T1", 2, 2, 2, ["c1"], ["match"], ["Team A"]⟩

/-- A full 18-hole raw score line. -/
def raw18 : List Int := List.replicate 18 4

/-- A full 18-hole net score line. -/
def net18 : List Int := List.replicate 18 3

/-- A stored user with no score entries yet. -/
def cxUserBob : PUser := ⟨"bob", "hash", "Bob", 0, [], []⟩

/-- Concrete registration request. -/
def regAlice : RegReq := ⟨"alice", "pw1", "Alice", 5⟩

/-- Concrete registration request. -/
def regBob : RegReq := ⟨"bob", "pw2", "Bob", 7⟩

/-- Fresh process state for the register machine: empty users file, both
handlers not yet started. -/
def regInit : RegSys := ⟨[], RegPhase.start, RegPhase.start⟩

/-- A stored user record as a raw JS object, password hash included. -/
def cxStoredUser : List (String × JVal) :=
  [("username", JVal.str "bob"), ("password", JVal.str "$2b$10$abc"),
   ("name", JVal.str "Bob"), ("handicap", JVal.num 0),
   ("trips", JVal.obj []), ("friends", JVal.arr [])]

theorem find?_none_any {α : Type} (p : α → Bool) (l : List α)
    (h : l.find? p = none) : l.any p = false := by
  rw [List.find?_eq_none] at h
  rw [List.any_eq_false]
  intro x hx
  simp [h x hx]

theorem find?_none_append {α : Type} (p : α → Bool) (l1 l2 : List α)
    (h : l1.find? p = none) : (l1 ++ l2).find? p = l2.find? p := by
  simp [List.find?_append, h]

theorem find?_replaceFirst :
    ∀ (l : List PUser) (uname : String) (u1 old : PUser),
      l.find? (fun u => u.username == uname) = some old →
      (u1.username == uname) = true →
      (replaceFirst l uname u1).find? (fun u => u.username == uname)
        = some u1 := by
  intro l
  induction l with
  | nil => intro uname u1 old h _; simp [List.find?] at h
  | cons a t ih =>
    intro uname u1 old h h1
    cases hp : a.username == uname with
    | true => simp [replaceFirst, hp, List.find?, h1]
    | false =>
      simp [List.find?, hp] at h
      simp [replaceFirst, hp, List.find?, ih uname u1 old h h1]

theorem upsert_find?_of_none {α : Type} (l : List (String × α)) (k : String)
    (v : α) (h : l.find? (fun p => p.1 == k) = none) :
    (upsert l k v).find? (fun p => p.1 == k) = some (k, v) := by
  have hany := find?_none_any (fun p => p.1 == k) l h
  simp [upsert, hany, find?_none_append _ l [(k, v)] h, List.find?]

/-- C1: two `POST /users/register` handlers whose `await bcrypt.hash`
suspensions overlap (schedule read₁, read₂, write₁, write₂) both answer 201,
yet the final users file holds only the second user — the second write was
based on a snapshot read before the first write landed — whereas applying the
two accepted mutations one at a time in acceptance order yields both users.
The store is NOT per-collection serializable: the first accepted mutation is
lost. -/
theorem register_interleaving_loses_update :
    (regRun regAlice regBob [false, true, false, true] regInit).p1
      = RegPhase.responded 201
  ∧ (regRun regAlice regBob [false, true, false, true] regInit).p2
      = RegPhase.responded 201
  ∧ (regRun regAlice regBob [false, true, false, true] regInit).file
      = [mkRegUser regBob]
  ∧ (regRun regAlice regBob [false, false, true, true] regInit).file
      = [mkRegUser regAlice, mkRegUser regBob]
  ∧ (regRun regAlice regBob [false, true, false, true] regInit).file
      ≠ (regRun regAlice regBob [false, false, true, true] regInit).file := by
  decide

/-- C2, counterexample: a successful forced push of `trips` at t=100 makes a
non-forced sync of `users` at t=110 rate-limit-deferred onto the queue, while
the very same `users` call against the same state WITHOUT the prior trips
push goes through — the deferral of `users` is caused solely by the other
collection's push, because `lastSyncTime` is one process-wide variable. -/
theorem crossCollection_push_defers_other :
    syncB usersPath false 110 (OutB.responded true)
        (syncB tripsPath true 100 (OutB.responded true) ⟨none, []⟩).1
      = (⟨some 100, [usersPath]⟩, SyncRes.deferred)
  ∧ syncB usersPath false 110 (OutB.responded true) ⟨none, []⟩
      = (⟨some 110, []⟩, SyncRes.synced) := by
  decide

/-- C2, amended: rate limiting is global, not per collection. A successful
push of ANY collection `c1` sets the single `lastSyncTime`, and every
non-forced sync of ANY collection `c2` within `SYNC_INTERVAL` of it is
deferred onto the retry queue, whatever the two collections are. -/
theorem global_rateLimit_amended (c1 c2 : String) (s : SyncSt)
    (now1 now2 : Nat) (ok : Bool) (o : OutB)
    (h : now2 - now1 < SYNC_INTERVAL) :
    (syncB c1 true now1 (OutB.responded ok) s).1.lastSyncTime = some now1
  ∧ syncB c2 false now2 o (syncB c1 true now1 (OutB.responded ok) s).1
      = ({ lastSyncTime := some now1,
           syncQueue := s.syncQueue ++ [c2] }, SyncRes.deferred) := by
  constructor
  · simp [syncB]
  · simp [syncB, rateLimited, h]

/-- Witness for `global_rateLimit_amended` at trips/users, t=100 and t=110. -/
theorem global_rateLimit_amended_witness :
    (syncB tripsPath true 100 (OutB.responded true) ⟨none, []⟩).1.lastSyncTime
      = some 100
  ∧ syncB usersPath false 110 (OutB.responded true)
        (syncB tripsPath true 100 (OutB.responded true) ⟨none, []⟩).1
      = ({ lastSyncTime := some 100,
           syncQueue := [usersPath] }, SyncRes.deferred) :=
  global_rateLimit_amended tripsPath usersPath ⟨none, []⟩ 100 110 true
    (OutB.responded true) (by decide)

/-- C3, counterexample: two rate-limited syncs of the same collection push it
onto `syncQueue` twice — the queue holds two simultaneous entries for
`users`, so enqueue of an already-pending collection is NOT a no-op and
repeated enqueue is NOT idempotent with respect to queue size. -/
theorem syncQueue_duplicate_entries :
    (syncB usersPath false 120 (OutB.responded true)
        (syncB usersPath false 110 (OutB.responded true)
          ⟨some 100, []⟩).1).1.syncQueue
      = [usersPath, usersPath]
  ∧ ¬ ((syncB usersPath false 120 (OutB.responded true)
        (syncB usersPath false 110 (OutB.responded true)
          ⟨some 100, []⟩).1).1.syncQueue.count usersPath ≤ 1) := by
  decide

/-- C3, amended: every enqueue site appends unconditionally. A rate-limit
deferral appends the collection to `syncQueue` (growing it by exactly one)
whether or not it is already present, in both variants, and the failure path
re-enqueues the same way; the queue is a plain array with no dedup. -/
theorem enqueue_appends_unconditionally (fp : String) (now now2 : Nat)
    (s s2 : SyncSt) (ob ob2 : OutB) (o : OutA) (rest : List OutA) (fuel : Nat)
    (h1 : rateLimited s.lastSyncTime now = true)
    (h2 : rateLimited s2.lastSyncTime now2 = false)
    (h3 : ob2 = OutB.fetchThrow ∨ ob2 = OutB.putThrow) :
    (syncB fp false now ob s).1.syncQueue = s.syncQueue ++ [fp]
  ∧ ((syncB fp false now ob s).1.syncQueue).length = s.syncQueue.length + 1
  ∧ (syncA (fuel + 1) fp false now (o :: rest) s).1.syncQueue
      = s.syncQueue ++ [fp]
  ∧ (syncB fp false now2 ob2 s2).1.syncQueue = s2.syncQueue ++ [fp] := by
  refine ⟨?_, ?_, ?_, ?_⟩
  · simp [syncB, h1]
  · simp [syncB, h1]
  · simp [syncA, h1]
  · rcases h3 with h3 | h3 <;> simp [syncB, h2, h3]

/-- Witness for `enqueue_appends_unconditionally`: the deferral state already
holds `usersPath`, and the append still happens. -/
theorem enqueue_appends_unconditionally_witness :
    (syncB usersPath false 110 (OutB.responded true)
        ⟨some 100, [usersPath]⟩).1.syncQueue = [usersPath] ++ [usersPath]
  ∧ ((syncB usersPath false 110 (OutB.responded true)
        ⟨some 100, [usersPath]⟩).1.syncQueue).length = ([usersPath] : List String).length + 1
  ∧ (syncA (0 + 1) usersPath false 110 [OutA.ok]
        ⟨some 100, [usersPath]⟩).1.syncQueue = [usersPath] ++ [usersPath]
  ∧ (syncB usersPath false 50 OutB.fetchThrow ⟨none, []⟩).1.syncQueue
      = [] ++ [usersPath] :=
  enqueue_appends_unconditionally usersPath 110 50 ⟨some 100, [usersPath]⟩
    ⟨none, []⟩ (OutB.responded true) OutB.fetchThrow OutA.ok [] 0
    (by decide) (by decide) (Or.inl rfl)

/-- C4, counterexample: in part_000's `syncToGitHub` the PUT response status
is never checked, so a compare-and-set write REJECTED by the remote store
(`responded false`, e.g. a 409 on a stale sha) is treated exactly like a
success: the call reports synced and `lastSyncTime` is updated — the claim's
"a push whose remote PUT is rejected is never treated as a success" is false,
and no fetch-then-CAS retry loop exists anywhere. -/
theorem rejected_put_treated_as_success :
    syncB usersPath true 100 (OutB.responded false) ⟨none, []⟩
      = (⟨some 100, []⟩, SyncRes.synced) := by
  decide

/-- C4, amended: there is no in-call bounded retry. In the index.js variant a
stale-token rejection (non-2xx PUT) and a transport failure are
indistinguishable: either one makes the single attempt fail immediately, the
collection is re-enqueued on the retry queue, `lastSyncTime` is untouched,
and the remaining remote outcomes are never consumed (the result does not
depend on them); only a successful attempt behaves differently. In the
part_000 variant a PUT that was answered at all — accepted or rejected — is
treated as a successful push and updates `lastSyncTime`. -/
theorem no_incall_retry_amended (fp : String) (force : Bool)
    (now fuel : Nat) (s : SyncSt) (o : OutA) (rest rest2 : List OutA)
    (b : Bool)
    (h1 : (!force && rateLimited s.lastSyncTime now) = false)
    (h2 : o = OutA.fetchThrow ∨ o = OutA.putThrow ∨ o = OutA.putNotOk) :
    syncA (fuel + 1) fp force now (o :: rest) s
      = ({ s with syncQueue := s.syncQueue ++ [fp] }, SyncRes.failed)
  ∧ syncA (fuel + 1) fp force now (o :: rest) s
      = syncA (fuel + 1) fp force now (o :: rest2) s
  ∧ (syncA (fuel + 1) fp force now (o :: rest) s).1.lastSyncTime
      = s.lastSyncTime
  ∧ syncB fp force now (OutB.responded b) s
      = ({ s with lastSyncTime := some now }, SyncRes.synced) := by
  rcases h2 with h2 | h2 | h2 <;>
    subst h2 <;>
    refine ⟨?_, ?_, ?_, ?_⟩ <;>
    simp [syncA, syncB, h1]

/-- Witness for `no_incall_retry_amended`: one rejected CAS attempt with a
would-succeed outcome still queued behind it. -/
theorem no_incall_retry_amended_witness :
    syncA (0 + 1) usersPath true 100 [OutA.putNotOk] ⟨none, []⟩
      = ({ lastSyncTime := none, syncQueue := [] ++ [usersPath] },
         SyncRes.failed)
  ∧ syncA (0 + 1) usersPath true 100 [OutA.putNotOk] ⟨none, []⟩
      = syncA (0 + 1) usersPath true 100 [OutA.putNotOk, OutA.ok] ⟨none, []⟩
  ∧ (syncA (0 + 1) usersPath true 100 [OutA.putNotOk] ⟨none, []⟩).1.lastSyncTime
      = (⟨none, []⟩ : SyncSt).lastSyncTime
  ∧ syncB usersPath true 100 (OutB.responded false) ⟨none, []⟩
      = ({ lastSyncTime := some 100, syncQueue := [] }, SyncRes.synced) :=
  no_incall_retry_amended usersPath true 100 0 ⟨none, []⟩ OutA.putNotOk []
    [OutA.ok] false (by decide) (Or.inr (Or.inr rfl))

/-- C5, counterexample: with `lastSyncTime = 100` and `users` pending, the
drain tick at t=110 shifts the entry, calls `syncToGitHub` WITHOUT `force`,
and the rate limiter immediately re-defers it back onto the queue — no remote
push happens (the available `ok` outcome is not consumed and `lastSyncTime`
stays 100), in both variants. -/
theorem drain_redefers_within_interval :
    drainTickA 110 [OutA.ok] ⟨some 100, [usersPath]⟩
      = (⟨some 100, [usersPath]⟩, some SyncRes.deferred)
  ∧ drainTickB 110 (OutB.responded true) ⟨some 100, [usersPath]⟩
      = (⟨some 100, [usersPath]⟩, some SyncRes.deferred) := by
  decide

/-- C5, amended: the drain tick does NOT bypass the rate limiter. Each tick
removes the front entry and calls `syncToGitHub` with `force` defaulted to
`false`, so whenever the sync interval has not elapsed since the last
successful push the drained entry is re-deferred to the back of the queue and
no remote push is performed, in both variants. -/
theorem drain_applies_rate_limiter (fp : String) (rest : List String)
    (t now : Nat) (outs : List OutA) (ob : OutB)
    (h : now - t < SYNC_INTERVAL) :
    drainTickA now outs ⟨some t, fp :: rest⟩
      = (⟨some t, rest ++ [fp]⟩, some SyncRes.deferred)
  ∧ drainTickB now ob ⟨some t, fp :: rest⟩
      = (⟨some t, rest ++ [fp]⟩, some SyncRes.deferred) := by
  constructor
  · simp [drainTickA, syncA, rateLimited, h]
  · simp [drainTickB, syncB, rateLimited, h]

/-- Witness for `drain_applies_rate_limiter`: queue `[users, trips]` at
t=110, ten seconds after the last sync. -/
theorem drain_applies_rate_limiter_witness :
    drainTickA 110 [OutA.ok] ⟨some 100, usersPath :: [tripsPath]⟩
      = (⟨some 100, [tripsPath] ++ [usersPath]⟩, some SyncRes.deferred)
  ∧ drainTickB 110 (OutB.responded true) ⟨some 100, usersPath :: [tripsPath]⟩
      = (⟨some 100, [tripsPath] ++ [usersPath]⟩, some SyncRes.deferred) :=
  drain_applies_rate_limiter usersPath [tripsPath] 100 110 [OutA.ok]
    (OutB.responded true) (by decide)

/-- C6: `restoreFromGitHub(FILES.trips)` is fired without `await` and
`server.listen` runs synchronously right after, so the code admits the
startup trace in which a `POST /trips` mutation is accepted (and answered
201) BEFORE the restore write lands; the late restore then overwrites the
file with the remote content and the accepted trip is silently gone — while
the restore-first ordering keeps it. -/
theorem mutation_lost_to_late_restore :
    startupAdmissible
        [StartEv.acceptPostTrip cxTripA, StartEv.restoreWrite ⟨[]⟩] = true
  ∧ runStart ⟨[]⟩ [StartEv.acceptPostTrip cxTripA, StartEv.restoreWrite ⟨[]⟩]
      = ⟨[]⟩
  ∧ tripOfA (runStart ⟨[]⟩
        [StartEv.acceptPostTrip cxTripA, StartEv.restoreWrite ⟨[]⟩]) "T1"
      = none
  ∧ tripOfA (runStart ⟨[]⟩
        [StartEv.restoreWrite ⟨[]⟩, StartEv.acceptPostTrip cxTripA]) "T1"
      = some cxTripA := by
  decide

/-- C8: when the local write fails, part_000's `writeJsonFile` swallows the
error (part_000:64-71 has no rethrow), so its `POST /trips` still answers
201 "created" although nothing was persisted (the disk file is unchanged) —
the request DOES report success on a persistence failure.  The index.js
variant rethrows (src/index.js:64) and its handler answers 500 with all
state untouched, which is what the claim describes. -/
theorem write_failure_still_reports_success :
    (postTripsB cxTrip ⟨[]⟩ ⟨[]⟩ false false 100 101 (OutB.responded true)
        (OutB.responded true) ⟨none, []⟩).resp = TripsResp.created cxTrip
  ∧ (postTripsB cxTrip ⟨[]⟩ ⟨[]⟩ false false 100 101 (OutB.responded true)
        (OutB.responded true) ⟨none, []⟩).tripsFile = ⟨[]⟩
  ∧ (postTripsA cxTripA ⟨[]⟩ false 100 [OutA.ok] ⟨none, []⟩).resp
      = TripsRespA.serverError
  ∧ (postTripsA cxTripA ⟨[]⟩ false 100 [OutA.ok] ⟨none, []⟩).tripsFile
      = ⟨[]⟩ := by
  decide

/-- C7: a remote-sync failure is never surfaced to the mutating request.
First conjunct: variant B's `POST /trips` response is a function of the
request and local state only — swapping ANY remote outcomes (success,
deferral, rejection, thrown transport error) for any others leaves the
response unchanged, because `syncToGitHub` catches everything internally.
Second conjunct: with a valid body whose leader exists, the response is the
201 success carrying the updated trip, whatever `o1`/`o2` did.  Third
conjunct: same independence for variant A's `POST /trips`. -/
theorem sync_outcome_never_changes_response
    (body body2 : Trip) (tf tf2 : TripsFile) (uf uf2 : UsersFile)
    (wT wU wT2 wU2 : Bool) (now1 now2 n21 n22 : Nat)
    (o1 o2 q1 q2 q1p q2p : OutB) (ss ss2 : SyncSt) (user : PUser)
    (bodyA : TripA) (tfA : TripsFileA) (wOkA : Bool) (nowA : Nat)
    (outsA outsA2 : List OutA) (ssA : SyncSt)
    (hv : (body.tripId == "" || body.tripLeader == "") = false)
    (hfind : uf.users.find? (fun u => u.username == body.tripLeader)
      = some user)
    (hcont : (body.users.getD []).contains body.tripLeader = false) :
    (postTripsB body2 tf2 uf2 wT2 wU2 n21 n22 q1 q2 ss2).resp
      = (postTripsB body2 tf2 uf2 wT2 wU2 n21 n22 q1p q2p ss2).resp
  ∧ (postTripsB body tf uf wT wU now1 now2 o1 o2 ss).resp
      = TripsResp.created
          { body with users := some (body.users.getD [] ++ [body.tripLeader]) }
  ∧ (postTripsA bodyA tfA wOkA nowA outsA ssA).resp
      = (postTripsA bodyA tfA wOkA nowA outsA2 ssA).resp := by
  refine ⟨?_, ?_, ?_⟩
  · cases hc : (body2.tripId == "" || body2.tripLeader == "") with
    | true => simp [postTripsB, hc]
    | false =>
      cases hf : uf2.users.find? (fun u => u.username == body2.tripLeader) with
      | none => simp [postTripsB, hc, hf]
      | some u => simp [postTripsB, hc, hf]
  · have hmem : body.tripLeader ∉ body.users.getD [] := by simpa using hcont
    simp [postTripsB, hv, hfind, hcont, hmem]
  · cases hcA : (bodyA.tripId == "" || bodyA.numTeams == 0 ||
        bodyA.playersPerTeam == 0 || bodyA.numRounds == 0) with
    | true => simp [postTripsA, hcA]
    | false => cases wOkA <;> simp [postTripsA, hcA]

/-- Witness for `sync_outcome_never_changes_response`: valid trip, leader on
file, one run with two rejected syncs against one with two successes. -/
theorem sync_outcome_never_changes_response_witness :
    (postTripsB cxTrip ⟨[]⟩ ⟨[⟨"lee", "h", "Lee", 2, [], []⟩]⟩ true true 100
        101 OutB.fetchThrow OutB.putThrow ⟨none, []⟩).resp
      = (postTripsB cxTrip ⟨[]⟩ ⟨[⟨"lee", "h", "Lee", 2, [], []⟩]⟩ true true
          100 101 (OutB.responded true) (OutB.responded true) ⟨none, []⟩).resp
  ∧ (postTripsB cxTrip ⟨[]⟩ ⟨[⟨"lee", "h", "Lee", 2, [], []⟩]⟩ true true 100
        101 OutB.fetchThrow OutB.putThrow ⟨none, []⟩).resp
      = TripsResp.created
          { cxTrip with users := some (cxTrip.users.getD [] ++ [cxTrip.tripLeader]) }
  ∧ (postTripsA cxTripA ⟨[]⟩ true 100 [OutA.putNotOk] ⟨none, []⟩).resp
      = (postTripsA cxTripA ⟨[]⟩ true 100 [OutA.ok] ⟨none, []⟩).resp :=
  sync_outcome_never_changes_response cxTrip cxTrip ⟨[]⟩ ⟨[]⟩
    ⟨[⟨"lee", "h", "Lee", 2, [], []⟩]⟩ ⟨[⟨"lee", "h", "Lee", 2, [], []⟩]⟩
    true true true true 100 101 100 101 OutB.fetchThrow OutB.putThrow
    OutB.fetchThrow OutB.putThrow (OutB.responded true) (OutB.responded true)
    ⟨none, []⟩ ⟨none, []⟩ ⟨"lee", "h", "Lee", 2, [], []⟩ cxTripA ⟨[]⟩ true 100
    [OutA.putNotOk] [OutA.ok] ⟨none, []⟩ (by decide) (by decide) (by decide)

/-- C9, counterexample: trip T1 has 3 rounds, but a FIRST score submission
for it through save-scores creates the user's entry with arrays of length 1
(empty arrays, then `raw_scores[0] = raw`), not length 3 — the claimed
"length equal to the trip's round count at creation time" fails for the
first-score-submission creation path. -/
theorem saveScores_creates_short_arrays :
    (saveScoresB "bob" "T1" 0 raw18 net18 ⟨[cxUserBob]⟩ 100
        (OutB.responded true) ⟨none, []⟩).usersFile
      = ⟨[{ cxUserBob with
            trips := [("T1", ⟨[some raw18], [some net18]⟩)] }]⟩
  ∧ numRoundsOr1 cxTrip = 3
  ∧ ((⟨[some raw18], [some net18]⟩ : ScoreEntry).raw_scores.length
      ≠ numRoundsOr1 cxTrip) := by
  decide

/-- C9, amended: entries created by add-trip (and by trip creation, which
uses the same `mkEntryB` constructor, part_000:158-161) have score arrays of
length equal to the trip's round count (`numRounds || 1`), as does the
index.js add-trip variant's `scores` array; but an entry created by a first
score submission through save-scores starts as two empty arrays and, after
writing round `round`, has length `round + 1` — independent of the trip's
round count, which save-scores never reads. -/
theorem score_entry_lengths_amended
    (uname tid : String) (uf uf2 : UsersFile) (tf : TripsFile)
    (now1 now2 now3 : Nat) (o1 o2 o3 : OutB) (ss ss3 : SyncSt)
    (user u2 : PUser) (trip t : Trip) (round : Nat) (raw net : List Int)
    (hfu : uf.users.find? (fun u => u.username == uname) = some user)
    (htrip : tripOf tf tid = some trip)
    (hnoe : user.trips.find? (fun p => p.1 == tid) = none)
    (hfu2 : uf2.users.find? (fun u => u.username == uname) = some u2)
    (hnoe2 : u2.trips.find? (fun p => p.1 == tid) = none)
    (hraw : raw.length = 18) (hnet : net.length = 18) :
    (addTripB uname tid uf tf now1 now2 o1 o2 ss).resp
      = AddTripResp.okUser
          { user with trips := user.trips ++ [(tid, mkEntryB trip)] }
  ∧ (mkEntryB trip).raw_scores.length = numRoundsOr1 trip
  ∧ (mkEntryB trip).net_scores.length = numRoundsOr1 trip
  ∧ (mkEntryIdx t).length = numRoundsOr1 t
  ∧ findUser (saveScoresB uname tid round raw net uf2 now3 o3 ss3).usersFile
        uname
      = some { u2 with
               trips := u2.trips
                 ++ [(tid, ⟨setPad [] round raw, setPad [] round net⟩)] }
  ∧ (setPad ([] : List (Option (List Int))) round raw).length = round + 1
  ∧ (setPad ([] : List (Option (List Int))) round net).length = round + 1 := by
  have hany := find?_none_any (fun p => p.1 == tid) user.trips hnoe
  have hany2 := find?_none_any (fun p => p.1 == tid) u2.trips hnoe2
  have hp : (u2.username == uname) = true := by
    have hq := List.find?_some hfu2
    simpa using hq
  refine ⟨?_, ?_, ?_, ?_, ?_, ?_, ?_⟩
  · simp [addTripB, hfu, htrip, hany]
  · simp [mkEntryB]
  · simp [mkEntryB]
  · simp [mkEntryIdx]
  · simp only [saveScoresB, hraw, hnet, hfu2, entryOf, hnoe2, findUser]
    simp only [upsert, hany2, Bool.false_eq_true, if_false]
    simp only [beq_self_eq_true, and_self, Bool.not_true,
      Bool.false_eq_true, if_false, Option.map_none]
    exact find?_replaceFirst uf2.users uname _ u2 hfu2 hp
  · simp [setPad]
  · simp [setPad]

/-- Witness for `score_entry_lengths_amended` at the three-round trip T1,
user bob, first submission for round 0. -/
theorem score_entry_lengths_amended_witness :
    (addTripB "bob" "T1" ⟨[cxUserBob]⟩ ⟨[("T1", cxTrip)]⟩ 100 101
        (OutB.responded true) (OutB.responded true) ⟨none, []⟩).resp
      = AddTripResp.okUser
          { cxUserBob with trips := cxUserBob.trips ++ [("T1", mkEntryB cxTrip)] }
  ∧ (mkEntryB cxTrip).raw_scores.length = numRoundsOr1 cxTrip
  ∧ (mkEntryB cxTrip).net_scores.length = numRoundsOr1 cxTrip
  ∧ (mkEntryIdx cxTrip).length = numRoundsOr1 cxTrip
  ∧ findUser (saveScoresB "bob" "T1" 0 raw18 net18 ⟨[cxUserBob]⟩ 102
        (OutB.responded true) ⟨none, []⟩).usersFile "bob"
      = some { cxUserBob with
               trips := cxUserBob.trips
                 ++ [("T1", ⟨setPad [] 0 raw18, setPad [] 0 net18⟩)] }
  ∧ (setPad ([] : List (Option (List Int))) 0 raw18).length = 0 + 1
  ∧ (setPad ([] : List (Option (List Int))) 0 net18).length = 0 + 1 :=
  score_entry_lengths_amended "bob" "T1" ⟨[cxUserBob]⟩ ⟨[cxUserBob]⟩
    ⟨[("T1", cxTrip)]⟩ 100 101 102 (OutB.responded true) (OutB.responded true)
    (OutB.responded true) ⟨none, []⟩ ⟨none, []⟩ cxUserBob cxUserBob cxTrip
    cxTrip 0 raw18 net18 (by decide) (by decide) (by decide) (by decide)
    (by decide) (by decide) (by decide)

theorem lookupField_omitPassword_password (fs : List (String × JVal)) :
    lookupField (omitPassword fs) "password" = none := by
  induction fs with
  | nil => rfl
  | cons f rest ih =>
    cases hf : f.1 == "password" with
    | true => simpa [omitPassword, List.filter_cons, hf] using ih
    | false =>
      simp only [omitPassword, List.filter_cons, hf, Bool.not_false,
        if_true] at ih ⊢
      simp only [lookupField, List.find?, hf] at ih ⊢
      exact ih

theorem lookupField_omitPassword_other (fs : List (String × JVal)) (k : String)
    (hk : (k == "password") = false) :
    lookupField (omitPassword fs) k = lookupField fs k := by
  have hkp : k ≠ "password" := by simpa using hk
  induction fs with
  | nil => rfl
  | cons f rest ih =>
    cases hf : f.1 == "password" with
    | true =>
      have h1 : f.1 = "password" := by simpa using hf
      have hfk : (f.1 == k) = false := by
        simp [h1]
        exact fun e => hkp e.symm
      simp only [omitPassword, List.filter_cons, hf, Bool.not_true,
        Bool.false_eq_true, if_false] at ih ⊢
      simp only [lookupField, List.find?, hfk]
      exact ih
    | false =>
      cases hfk : f.1 == k with
      | true =>
        simp [omitPassword, List.filter_cons, hf, lookupField, List.find?, hfk]
      | false =>
        simp only [omitPassword, List.filter_cons, hf, Bool.not_false,
          if_true] at ih ⊢
        simp only [lookupField, List.find?, hfk] at ih ⊢
        exact ih

/-- C10: `GET /users/:username` answers exactly the stored record with the
`password` field removed — the response never contains the credential hash
(`lookupField … "password" = none`) and every other field is unchanged. -/
theorem getUser_omits_password_hash (users : List (List (String × JVal)))
    (uname k : String) (orig : List (String × JVal))
    (hfind : users.find? (fun u => isUsername u uname) = some orig)
    (hk : (k == "password") = false) :
    getUserB users uname = GetUserResp.okFields (omitPassword orig)
  ∧ lookupField (omitPassword orig) "password" = none
  ∧ lookupField (omitPassword orig) k = lookupField orig k := by
  refine ⟨?_, lookupField_omitPassword_password orig,
    lookupField_omitPassword_other orig k hk⟩
  simp [getUserB, hfind]

/-- Witness for `getUser_omits_password_hash` on a stored bob record with a
bcrypt hash in its `password` field, probing the `name` field. -/
theorem getUser_omits_password_hash_witness :
    getUserB [cxStoredUser] "bob"
      = GetUserResp.okFields (omitPassword cxStoredUser)
  ∧ lookupField (omitPassword cxStoredUser) "password" = none
  ∧ lookupField (omitPassword cxStoredUser) "name"
      = lookupField cxStoredUser "name" :=
  getUser_omits_password_hash [cxStoredUser] "bob" "name" cxStoredUser rfl rfl

end Forescore
